import Mathlib

/-!
Shallow embedding of the sast-viewer aggregation and normalization pipeline.

The embedding follows the TypeScript source:
- `src/index.ts` (the multi-application orchestration loop `main`),
- `src/services/GitHubService/GitHubCodeScanningResultService.ts`,
- `src/services/GitHubService/GitHubDependencyScanningResultService.ts`,
- `src/services/AzureDevOpsService/AzureDevOpsCodeScanningResultService.ts`,
- `src/interfaces/scanning-result.interface.ts`.

Machine timestamps are modelled as `Option Nat` (milliseconds since epoch;
`none` models an absent field, JavaScript `a || b` on such fields is
`Option.orElse`).  Connector calls are modelled by their outcome, an
`Except String` value: the orchestration code only observes whether a fetch
returned a list of findings or threw an error with a message.
-/

namespace SastViewer

/-- The six canonical severity values of the unified finding model
(`ScanningResultBase.severity` in `scanning-result.interface.ts`). -/
inductive Severity where
  | critical
  | high
  | medium
  | low
  | warning
  | note
deriving DecidableEq, Repr

/-- Category of a finding (`code-scanning` vs `dependency-scanning`). -/
inductive Category where
  | codeScanning
  | dependencyScanning
deriving DecidableEq, Repr

/-- JavaScript `String.prototype.toLowerCase()` on ASCII vocabulary strings:
lowercases every character.  (Stated over the character list so that it
reduces in the kernel; extensionally it is `String.toLower`.) -/
def toLowerCase (s : String) : String :=
  ⟨s.data.map Char.toLower⟩

namespace GitHubCodeScanningResultService

/-- The fixed severity lookup table of
`GitHubCodeScanningResultService.mapGitHubSeverity` (the TypeScript object
literal `severityMap`), as an association list in source order. -/
def severityMap : List (String × Severity) :=
  [("critical", Severity.critical),
   ("high", Severity.high),
   ("medium", Severity.medium),
   ("low", Severity.low),
   ("warning", Severity.warning),
   ("note", Severity.note),
   ("error", Severity.high),
   ("recommendation", Severity.medium)]

/-- Embedding of `GitHubCodeScanningResultService.mapGitHubSeverity`: looks up the
lowercased raw severity in `severityMap` and defaults to `medium` when the
lookup misses (`return mapped || 'medium'`). -/
def mapGitHubSeverity (githubSeverity : String) : Severity :=
  (severityMap.lookup (toLowerCase githubSeverity)).getD Severity.medium

end GitHubCodeScanningResultService

namespace GitHubDependencyScanningResultService

/-- The fixed severity lookup table of
`GitHubDependencyScanningResultService.mapGitHubSeverity`. -/
def severityMap : List (String × Severity) :=
  [("critical", Severity.critical),
   ("high", Severity.high),
   ("medium", Severity.medium),
   ("low", Severity.low),
   ("unknown", Severity.warning)]

/-- Embedding of `GitHubDependencyScanningResultService.mapGitHubSeverity`: looks up the
lowercased raw severity in its `severityMap` and defaults to `medium` when
the lookup misses. -/
def mapGitHubSeverity (githubSeverity : String) : Severity :=
  (severityMap.lookup (toLowerCase githubSeverity)).getD Severity.medium

end GitHubDependencyScanningResultService

/-- The fields of the unified finding model that this development tracks
(`ScanningResultBase` in `scanning-result.interface.ts`): severity, the two
timestamps (milliseconds, `none` for an invalid date built from an absent
raw field), state and category.  The remaining fields (identifiers, free
text, location and package data) play no role in any claim. -/
structure Finding where
  severity : Severity
  createdAt : Option Nat
  updatedAt : Option Nat
  state : String
  category : Category
deriving DecidableEq, Repr

/-- The `rule` sub-object of a raw GitHub code-scanning alert. -/
structure RawRule where
  severity : Option String
deriving DecidableEq, Repr

/-- A raw GitHub code-scanning alert: the fields
`GitHubCodeScanningResultService.mapGitHubAlertToResult` reads to build the
tracked `Finding` fields.  `none` models an absent (`undefined`) field. -/
structure RawCodeAlert where
  rule : Option RawRule
  severity : Option String
  created_at : Option Nat
  updated_at : Option Nat
  created : Option Nat
  updated : Option Nat
  state : Option String
deriving DecidableEq, Repr

/-- The `security_advisory` sub-object of a raw Dependabot alert. -/
structure RawAdvisory where
  severity : Option String
deriving DecidableEq, Repr

/-- A raw GitHub Dependabot alert: the fields
`GitHubDependencyScanningResultService.mapGitHubDependabotAlertToResult`
reads to build the tracked `Finding` fields. -/
structure RawDependabotAlert where
  security_advisory : Option RawAdvisory
  created_at : Option Nat
  updated_at : Option Nat
  created : Option Nat
  updated : Option Nat
  state : Option String
deriving DecidableEq, Repr

/-- Embedding of `GitHubCodeScanningResultService.mapGitHubAlertToResult`, restricted to
the tracked fields.  JavaScript `a || b` on optional fields is `<|>`;
`new Date(x)` keeps the timestamp (or is invalid, `none`, when `x` is
absent): `severity: mapGitHubSeverity(rule.severity || alert.severity ||
'medium')`, `createdAt: new Date(alert.created_at || alert.created)`,
`updatedAt: new Date(alert.updated_at || alert.updated || alert.created_at
|| alert.created)`, `state: alert.state || 'open'`. -/
def GitHubCodeScanningResultService.mapGitHubAlertToResult
    (alert : RawCodeAlert) (_branchName : String) : Finding :=
  { severity := GitHubCodeScanningResultService.mapGitHubSeverity
      (((alert.rule.bind RawRule.severity) <|> alert.severity).getD "medium"),
    createdAt := alert.created_at <|> alert.created,
    updatedAt := alert.updated_at <|> alert.updated <|> alert.created_at <|> alert.created,
    state := alert.state.getD "open",
    category := Category.codeScanning }

/-- Embedding of `GitHubDependencyScanningResultService.mapGitHubDependabotAlertToResult`,
restricted to the tracked fields: `severity:
mapGitHubSeverity(advisory.severity || 'medium')`, timestamps and state as
in the code-scanning normalizer, `category: 'dependency-scanning'`. -/
def GitHubDependencyScanningResultService.mapGitHubDependabotAlertToResult
    (alert : RawDependabotAlert) (_branchName : String) : Finding :=
  { severity := GitHubDependencyScanningResultService.mapGitHubSeverity
      (((alert.security_advisory.bind RawAdvisory.severity)).getD "medium"),
    createdAt := alert.created_at <|> alert.created,
    updatedAt := alert.updated_at <|> alert.updated <|> alert.created_at <|> alert.created,
    state := alert.state.getD "open",
    category := Category.dependencyScanning }

/-- Comparison `c ≤ u` on two optional timestamps, vacuously true when either is
absent (an invalid JavaScript Date). -/
def orderedOpt : Option Nat → Option Nat → Bool
  | some c, some u => decide (c ≤ u)
  | _, _ => true

/-- The spec's data-model invariant `updatedAt >= createdAt`, read on a
normalized finding. -/
def Finding.timestampsOrdered (f : Finding) : Bool :=
  orderedOpt f.createdAt f.updatedAt

/-- The corresponding condition on a raw record: its effective updated
timestamp (`updated_at || updated`), when present together with the
effective created timestamp (`created_at || created`), is not earlier. -/
def rawTimestampsOrdered (created_at updated_at created updated : Option Nat) : Bool :=
  orderedOpt (created_at <|> created) (updated_at <|> updated)

/-- An Azure DevOps finding (`AzureDevOpsScanningResult` in
`scanning-result.interface.ts`); only its severity is read by the
aggregation, so only that field is tracked. -/
structure AzureDevOpsScanningResult where
  severity : Severity
deriving DecidableEq, Repr

/-- A pair of finding sequences for one platform (the `codeScanning` /
`dependencyScanning` sub-records of `AggregatedScanningResult`). -/
structure PlatformCategoryResults (α : Type) where
  codeScanning : List α
  dependencyScanning : List α
deriving DecidableEq, Repr

/-- Embedding of `AggregatedScanningResult`: one application's scan outcome (the
`timestamp` field is not tracked). -/
structure AggregatedScanningResult where
  applicationName : String
  branchName : String
  githubResults : PlatformCategoryResults Finding
  azureDevOpsResults : PlatformCategoryResults AzureDevOpsScanningResult
deriving DecidableEq, Repr

/-- One entry of the `applicationErrors` array of `main` in `index.ts`. -/
structure ScanError where
  applicationName : String
  error : String
deriving DecidableEq, Repr

/-- The severity histogram `severitySummary` of `main`. -/
structure SeveritySummary where
  critical : Nat
  high : Nat
  medium : Nat
  low : Nat
  warning : Nat
  note : Nat
deriving DecidableEq, Repr

/-- The `summary` record of `MultiApplicationAggregatedScanningResult`. -/
structure ScanningSummary where
  totalApplications : Nat
  totalGithubCodeScanningIssues : Nat
  totalGithubDependencyScanningIssues : Nat
  totalAzureDevOpsCodeScanningIssues : Nat
  totalAzureDevOpsDependencyScanningIssues : Nat
  severitySummary : SeveritySummary
deriving DecidableEq, Repr

/-- Embedding of `MultiApplicationAggregatedScanningResult` (the run-level output of
`main`; the `timestamp` field is not tracked). -/
structure MultiApplicationAggregatedScanningResult where
  applications : List AggregatedScanningResult
  errors : List ScanError
  summary : ScanningSummary
deriving DecidableEq, Repr

deriving instance DecidableEq for Except

/-- One configured GitHub application together with the outcomes its two
connector calls would produce if made: `Except.error e` models a fetch that
throws an error whose message is `e`, `Except.ok l` a fetch returning the
normalized findings `l`.  The orchestration loop in `main` observes its
connectors only through these outcomes. -/
structure GitHubAppScan where
  appName : String
  codeFetch : Except String (List Finding)
  depFetch : Except String (List Finding)
deriving DecidableEq, Repr

/-- One configured Azure DevOps application with its two connector-call
outcomes. -/
structure AzureAppScan where
  appName : String
  codeFetch : Except String (List AzureDevOpsScanningResult)
  depFetch : Except String (List AzureDevOpsScanningResult)
deriving DecidableEq, Repr

/-- The `errorResult` placeholder built in both `catch` branches of `main`:
an `AggregatedScanningResult` with all four finding sequences empty. -/
def errorResult (appName branchName : String) : AggregatedScanningResult :=
  { applicationName := appName,
    branchName := branchName,
    githubResults := ⟨[], []⟩,
    azureDevOpsResults := ⟨[], []⟩ }

/-- One iteration of the GitHub loop of `main` (`index.ts` lines 84-148):
both fetches run inside a single `try`; on success the application's result
holds the two GitHub lists and empty Azure DevOps lists; if either fetch
throws, the `catch` branch pushes the all-empty `errorResult` and the error
entry `{ applicationName: 'GitHub: ' + appName, error: message }`. -/
def processGitHubApp (branchName : String) (app : GitHubAppScan) :
    AggregatedScanningResult × Option ScanError :=
  match app.codeFetch with
  | Except.error e =>
      (errorResult app.appName branchName,
       some { applicationName := "GitHub: " ++ app.appName, error := e })
  | Except.ok githubCodeResults =>
      match app.depFetch with
      | Except.error e =>
          (errorResult app.appName branchName,
           some { applicationName := "GitHub: " ++ app.appName, error := e })
      | Except.ok githubDependencyResults =>
          ({ applicationName := app.appName,
             branchName := branchName,
             githubResults := ⟨githubCodeResults, githubDependencyResults⟩,
             azureDevOpsResults := ⟨[], []⟩ }, none)

/-- One iteration of the Azure DevOps loop of `main` (`index.ts` lines
151-218), symmetric to `processGitHubApp` with the error entry prefixed
"Azure DevOps: ". -/
def processAzureApp (branchName : String) (app : AzureAppScan) :
    AggregatedScanningResult × Option ScanError :=
  match app.codeFetch with
  | Except.error e =>
      (errorResult app.appName branchName,
       some { applicationName := "Azure DevOps: " ++ app.appName, error := e })
  | Except.ok azureDevOpsCodeResults =>
      match app.depFetch with
      | Except.error e =>
          (errorResult app.appName branchName,
           some { applicationName := "Azure DevOps: " ++ app.appName, error := e })
      | Except.ok azureDevOpsDependencyResults =>
          ({ applicationName := app.appName,
             branchName := branchName,
             githubResults := ⟨[], []⟩,
             azureDevOpsResults := ⟨azureDevOpsCodeResults, azureDevOpsDependencyResults⟩ }, none)

/-- The severities of every finding of one application, in the order the
summary loop of `main` visits them (github code, github dependency, azure
code, azure dependency). -/
def AggregatedScanningResult.allSeverities (r : AggregatedScanningResult) : List Severity :=
  r.githubResults.codeScanning.map Finding.severity ++
  r.githubResults.dependencyScanning.map Finding.severity ++
  r.azureDevOpsResults.codeScanning.map AzureDevOpsScanningResult.severity ++
  r.azureDevOpsResults.dependencyScanning.map AzureDevOpsScanningResult.severity

/-- Value of one histogram bucket: the number of findings across all
applications whose severity matches (each `switch` arm of the summary loop
increments its bucket exactly for those findings). -/
def countSeverity (rs : List AggregatedScanningResult) (sev : Severity) : Nat :=
  (((rs.map AggregatedScanningResult.allSeverities).flatten).filter (fun s => s == sev)).length

/-- The `severitySummary` histogram computed by the summary loop of `main`. -/
def severitySummaryOf (rs : List AggregatedScanningResult) : SeveritySummary :=
  { critical := countSeverity rs Severity.critical,
    high := countSeverity rs Severity.high,
    medium := countSeverity rs Severity.medium,
    low := countSeverity rs Severity.low,
    warning := countSeverity rs Severity.warning,
    note := countSeverity rs Severity.note }

/-- The orchestration of `main` in `index.ts`, as a pure function of the
configured applications and their connector-call outcomes: the GitHub loop,
the Azure DevOps loop, the summary totals (`+=` over each result's list
lengths) and the final `multiAppResults` record.  `totalApplications` is
computed, as in the source, from the lengths of the two configured lists. -/
def runAll (branchName : String) (ghApps : List GitHubAppScan) (azApps : List AzureAppScan) :
    MultiApplicationAggregatedScanningResult :=
  let ghProcessed := ghApps.map (processGitHubApp branchName)
  let azProcessed := azApps.map (processAzureApp branchName)
  let allApplicationsResults := ghProcessed.map Prod.fst ++ azProcessed.map Prod.fst
  let applicationErrors := ghProcessed.filterMap Prod.snd ++ azProcessed.filterMap Prod.snd
  { applications := allApplicationsResults,
    errors := applicationErrors,
    summary :=
      { totalApplications := ghApps.length + azApps.length,
        totalGithubCodeScanningIssues :=
          (allApplicationsResults.map (fun r => r.githubResults.codeScanning.length)).sum,
        totalGithubDependencyScanningIssues :=
          (allApplicationsResults.map (fun r => r.githubResults.dependencyScanning.length)).sum,
        totalAzureDevOpsCodeScanningIssues :=
          (allApplicationsResults.map (fun r => r.azureDevOpsResults.codeScanning.length)).sum,
        totalAzureDevOpsDependencyScanningIssues :=
          (allApplicationsResults.map (fun r => r.azureDevOpsResults.dependencyScanning.length)).sum,
        severitySummary := severitySummaryOf allApplicationsResults } }

/-- A build record of the Azure DevOps builds API; its contents are never
inspected by `fetchCodeScanningResults`. -/
structure AzureBuild where
  id : Nat
deriving DecidableEq, Repr

/-- Embedding of `AzureDevOpsCodeScanningResultService.fetchCodeScanningResults`, as a
function of the outcome of its one HTTP call (`GET /build/builds`):
`Except.error e` models a request that failed (the service logs and
rethrows, so the fetch throws `e` onward); `Except.ok none` models a
response without a well-formed `value` array (the service returns `[]`);
`Except.ok (some builds)` models a well-formed response (the service logs
the build count and returns `[]` — no code scanning data is available). -/
def AzureDevOpsCodeScanningResultService.fetchCodeScanningResults
    (buildsResponse : Except String (Option (List AzureBuild))) :
    Except String (List AzureDevOpsScanningResult) :=
  match buildsResponse with
  | Except.error e => Except.error e
  | Except.ok none => Except.ok []
  | Except.ok (some _builds) => Except.ok []

/-- The message of the exception that aborts the scan of one GitHub
application, `none` when both fetches succeed.  The code fetch runs first
inside the shared `try`, so its error wins and the dependency fetch is
never attempted. -/
def GitHubAppScan.failureMsg (app : GitHubAppScan) : Option String :=
  match app.codeFetch with
  | Except.error e => some e
  | Except.ok _ =>
      match app.depFetch with
      | Except.error e => some e
      | Except.ok _ => none

/-- The message of the exception that aborts the scan of one Azure DevOps
application, `none` when both fetches succeed. -/
def AzureAppScan.failureMsg (app : AzureAppScan) : Option String :=
  match app.codeFetch with
  | Except.error e => some e
  | Except.ok _ =>
      match app.depFetch with
      | Except.error e => some e
      | Except.ok _ => none

/-- Sum of the six buckets of a severity histogram. -/
def bucketSum (s : SeveritySummary) : Nat :=
  s.critical + s.high + s.medium + s.low + s.warning + s.note

/-- Total number of findings across all four finding sequences of all
application results. -/
def totalFindingCount (rs : List AggregatedScanningResult) : Nat :=
  (rs.map (fun r =>
    r.githubResults.codeScanning.length + r.githubResults.dependencyScanning.length +
    r.azureDevOpsResults.codeScanning.length +
    r.azureDevOpsResults.dependencyScanning.length)).sum

end SastViewer

namespace SastViewerExamples

open SastViewer

/-- A raw code-scanning alert whose `updated_at` precedes its `created_at`. -/
def lateCreatedAlert : RawCodeAlert :=
  { rule := none, severity := none, created_at := some 1000, updated_at := some 500,
    created := none, updated := none, state := none }

/-- A raw code-scanning alert with no updated timestamp at all. -/
def noUpdatedAlert : RawCodeAlert :=
  { rule := none, severity := some "high", created_at := some 100, updated_at := none,
    created := none, updated := none, state := some "open" }

/-- A raw Dependabot alert with consistent timestamps. -/
def okDependabotAlert : RawDependabotAlert :=
  { security_advisory := some { severity := some "critical" }, created_at := some 100,
    updated_at := some 200, created := none, updated := none, state := some "open" }

/-- A sample normalized finding, used as a successful connector payload. -/
def sampleFinding : Finding :=
  { severity := Severity.high, createdAt := some 0, updatedAt := some 0,
    state := "open", category := Category.dependencyScanning }

/-- A GitHub application whose code fetch throws while its dependency fetch
would succeed with one finding. -/
def mixedOutcomeGitHubApp : GitHubAppScan :=
  { appName := "app-a", codeFetch := Except.error "boom",
    depFetch := Except.ok [sampleFinding] }

/-- A GitHub application whose code fetch throws. -/
def failingGitHubApp : GitHubAppScan :=
  { appName := "gh-app", codeFetch := Except.error "boom", depFetch := Except.ok [] }

/-- A GitHub application whose fetches both succeed. -/
def healthyGitHubApp : GitHubAppScan :=
  { appName := "gh-ok", codeFetch := Except.ok [sampleFinding], depFetch := Except.ok [] }

/-- An Azure DevOps application whose dependency fetch throws. -/
def failingAzureApp : AzureAppScan :=
  { appName := "az-app", codeFetch := Except.ok [], depFetch := Except.error "down" }

/-- An Azure DevOps application whose fetches both succeed, the code fetch
with the outcome the Azure DevOps code-scanning service produces on a
well-formed builds response. -/
def healthyAzureApp : AzureAppScan :=
  { appName := "az-ok",
    codeFetch := AzureDevOpsCodeScanningResultService.fetchCodeScanningResults
      (Except.ok (some [{ id := 7 }])),
    depFetch := Except.ok [{ severity := Severity.low }] }

/-- The finding of severity `high` of application "svc-a" in the C4
scenario. -/
def svcAHigh : Finding :=
  { severity := Severity.high, createdAt := some 10, updatedAt := some 20,
    state := "open", category := Category.codeScanning }

/-- The finding of severity `low` of application "svc-a" in the C4
scenario. -/
def svcALow : Finding :=
  { severity := Severity.low, createdAt := some 10, updatedAt := some 20,
    state := "open", category := Category.codeScanning }

/-- The configured GitHub list of the C4 scenario: "svc-a" with two code
findings (`high`, `low`) and no dependency findings. -/
def scenarioGhApps : List GitHubAppScan :=
  [{ appName := "svc-a", codeFetch := Except.ok [svcAHigh, svcALow],
     depFetch := Except.ok [] }]

/-- The configured Azure DevOps list of the C4 scenario: "svc-b", whose
dependency fetch fails. -/
def scenarioAzApps : List AzureAppScan :=
  [{ appName := "svc-b", codeFetch := Except.ok [],
     depFetch := Except.error "Network Error: No response received from Azure DevOps API" }]

/-- The run of the C4 scenario. -/
def scenarioRun : MultiApplicationAggregatedScanningResult :=
  runAll "main" scenarioGhApps scenarioAzApps

/-- A raw code-scanning alert whose rule severity is the upper-case string
"CRITICAL" — a value absent from the fixed lookup table, whose lowercasing
is in the table. -/
def upperCritAlert : RawCodeAlert :=
  { rule := some { severity := some "CRITICAL" }, severity := none,
    created_at := some 100, updated_at := some 100, created := none, updated := none,
    state := some "open" }

/-- A raw code-scanning alert whose rule severity "CWE-79" is outside the
code-scanning vocabulary (its lowercasing misses the table too). -/
def bogusSeverityAlert : RawCodeAlert :=
  { rule := some { severity := some "CWE-79" }, severity := none,
    created_at := some 100, updated_at := some 100, created := none, updated := none,
    state := some "open" }

/-- A raw Dependabot alert whose advisory severity "CWE-79" is outside the
dependency-scanning vocabulary (its lowercasing misses the table too). -/
def bogusSeverityDepAlert : RawDependabotAlert :=
  { security_advisory := some { severity := some "CWE-79" }, created_at := some 100,
    updated_at := some 100, created := none, updated := none, state := some "open" }

end SastViewerExamples

open SastViewer SastViewerExamples

theorem orderedOpt_refl (x : Option Nat) : orderedOpt x x = true := by
  rcases x with _ | n <;> simp [orderedOpt]

theorem orderedOpt_fallback (ca c ua u : Option Nat)
    (h : orderedOpt (ca <|> c) (ua <|> u) = true) :
    orderedOpt (ca <|> c) (ua <|> u <|> ca <|> c) = true := by
  rcases ua with _ | y
  · rcases u with _ | w
    · simpa using orderedOpt_refl (ca <|> c)
    · simpa using h
  · simpa using h

/-- Claim C2, counterexample: the raw severity value "CRITICAL" of a
concrete raw alert is absent from the code-scanning platform's fixed
lookup table, yet the normalized finding's severity field is `critical`,
not the claimed default `medium` — the code looks up the lowercased
string, not the raw one. -/
theorem C2_counterexample :
    GitHubCodeScanningResultService.severityMap.lookup "CRITICAL" = none ∧
    GitHubCodeScanningResultService.mapGitHubSeverity "CRITICAL" = Severity.critical ∧
    (GitHubCodeScanningResultService.mapGitHubAlertToResult upperCritAlert "main").severity
      = Severity.critical ∧
    (GitHubCodeScanningResultService.mapGitHubAlertToResult upperCritAlert "main").severity
      ≠ Severity.medium := by
  decide

/-- Claim C2 (amended): for every raw record whose effective raw severity
value (the `||` chain the normalizer feeds to `mapGitHubSeverity`) has a
lowercasing absent from the given platform's fixed lookup table, the
normalized finding's severity field equals `medium`; the normalizer is a
total function, never an exception.  Stated for both GitHub normalizers. -/
theorem C2_default_medium (a : RawCodeAlert) (d : RawDependabotAlert) (b₁ b₂ : String)
    (ha : GitHubCodeScanningResultService.severityMap.lookup
      (toLowerCase (((a.rule.bind RawRule.severity) <|> a.severity).getD "medium")) = none)
    (hd : GitHubDependencyScanningResultService.severityMap.lookup
      (toLowerCase ((d.security_advisory.bind RawAdvisory.severity).getD "medium")) = none) :
    (GitHubCodeScanningResultService.mapGitHubAlertToResult a b₁).severity
      = Severity.medium ∧
    (GitHubDependencyScanningResultService.mapGitHubDependabotAlertToResult d b₂).severity
      = Severity.medium := by
  constructor
  · simp [GitHubCodeScanningResultService.mapGitHubAlertToResult,
      GitHubCodeScanningResultService.mapGitHubSeverity, ha]
  · simp [GitHubDependencyScanningResultService.mapGitHubDependabotAlertToResult,
      GitHubDependencyScanningResultService.mapGitHubSeverity, hd]

/-- Witness for `C2_default_medium` at concrete raw alerts carrying the
out-of-vocabulary raw severity "CWE-79". -/
theorem C2_default_medium_witness :
    (GitHubCodeScanningResultService.mapGitHubAlertToResult bogusSeverityAlert "main").severity
      = Severity.medium ∧
    (GitHubDependencyScanningResultService.mapGitHubDependabotAlertToResult
      bogusSeverityDepAlert "main").severity = Severity.medium :=
  C2_default_medium bogusSeverityAlert bogusSeverityDepAlert "main" "main"
    (by decide) (by decide)

/-- Claim C5, counterexample: on the raw severity string "unknown" the two
GitHub normalizers disagree: the code-scanning table has no entry (default
`medium`) while the dependency-scanning table maps it to `warning`. -/
theorem C5_counterexample :
    GitHubCodeScanningResultService.mapGitHubSeverity "unknown" = Severity.medium ∧
    GitHubDependencyScanningResultService.mapGitHubSeverity "unknown" = Severity.warning ∧
    GitHubCodeScanningResultService.mapGitHubSeverity "unknown" ≠
      GitHubDependencyScanningResultService.mapGitHubSeverity "unknown" := by
  decide

/-- Claim C5 (amended): the two GitHub normalizers use different severity
lookup tables; they map a raw severity string to the same canonical value
exactly when its lowercasing is not one of "unknown", "warning", "note",
"error".  (On all other strings they agree, including every string absent
from both tables, and "recommendation", which one table lists explicitly and
the other sends to the same default `medium`.) -/
theorem C5_severity_agreement (s : String) :
    GitHubCodeScanningResultService.mapGitHubSeverity s =
      GitHubDependencyScanningResultService.mapGitHubSeverity s ↔
    toLowerCase s ∉ (["unknown", "warning", "note", "error"] : List String) := by
  simp only [GitHubCodeScanningResultService.mapGitHubSeverity,
    GitHubDependencyScanningResultService.mapGitHubSeverity]
  generalize toLowerCase s = t
  by_cases hmem : t ∈ (["critical", "high", "medium", "low", "warning", "note",
      "error", "recommendation", "unknown"] : List String)
  · simp only [List.mem_cons, List.not_mem_nil, or_false] at hmem
    rcases hmem with rfl | rfl | rfl | rfl | rfl | rfl | rfl | rfl | rfl <;> decide
  · simp only [List.mem_cons, List.not_mem_nil, or_false] at hmem
    push_neg at hmem
    obtain ⟨h1, h2, h3, h4, h5, h6, h7, h8, h9⟩ := hmem
    simp only [GitHubCodeScanningResultService.severityMap,
      GitHubDependencyScanningResultService.severityMap, List.lookup,
      beq_false_of_ne h1, beq_false_of_ne h2, beq_false_of_ne h3, beq_false_of_ne h4,
      beq_false_of_ne h5, beq_false_of_ne h6, beq_false_of_ne h7, beq_false_of_ne h8,
      beq_false_of_ne h9]
    simp [h5, h6, h7, h9]

/-- Claim C8, counterexample: a raw alert whose `updated_at` (500) precedes
its `created_at` (1000) normalizes to a finding with `updatedAt` strictly
before `createdAt` — the normalizer copies both timestamps through without
clamping, so `updatedAt >= createdAt` does not hold for every raw record. -/
theorem C8_counterexample :
    (GitHubCodeScanningResultService.mapGitHubAlertToResult lateCreatedAlert "main").createdAt
        = some 1000 ∧
    (GitHubCodeScanningResultService.mapGitHubAlertToResult lateCreatedAlert "main").updatedAt
        = some 500 ∧
    (GitHubCodeScanningResultService.mapGitHubAlertToResult lateCreatedAlert "main").timestampsOrdered
        = false := by
  decide

/-- Claim C8 (amended): a normalized finding satisfies
`updatedAt >= createdAt` whenever the raw record's effective updated
timestamp (`updated_at || updated`), if present, is not earlier than its
effective created timestamp (`created_at || created`); in particular, when
the raw updated timestamp is missing entirely, `updatedAt` falls back to
exactly the created timestamp.  This holds for both GitHub normalizers. -/
theorem C8_timestamps (a : RawCodeAlert) (d : RawDependabotAlert) (b₁ b₂ : String)
    (ha : rawTimestampsOrdered a.created_at a.updated_at a.created a.updated = true)
    (hd : rawTimestampsOrdered d.created_at d.updated_at d.created d.updated = true) :
    (GitHubCodeScanningResultService.mapGitHubAlertToResult a b₁).timestampsOrdered = true ∧
    (GitHubDependencyScanningResultService.mapGitHubDependabotAlertToResult d b₂).timestampsOrdered
        = true ∧
    ((a.updated_at <|> a.updated) = none →
      (GitHubCodeScanningResultService.mapGitHubAlertToResult a b₁).updatedAt =
        (GitHubCodeScanningResultService.mapGitHubAlertToResult a b₁).createdAt) ∧
    ((d.updated_at <|> d.updated) = none →
      (GitHubDependencyScanningResultService.mapGitHubDependabotAlertToResult d b₂).updatedAt =
        (GitHubDependencyScanningResultService.mapGitHubDependabotAlertToResult d b₂).createdAt) := by
  unfold rawTimestampsOrdered at ha hd
  refine ⟨?_, ?_, ?_, ?_⟩
  · have h := orderedOpt_fallback a.created_at a.created a.updated_at a.updated ha
    simpa [GitHubCodeScanningResultService.mapGitHubAlertToResult,
      Finding.timestampsOrdered] using h
  · have h := orderedOpt_fallback d.created_at d.created d.updated_at d.updated hd
    simpa [GitHubDependencyScanningResultService.mapGitHubDependabotAlertToResult,
      Finding.timestampsOrdered] using h
  · intro h
    have h1 : a.updated_at = none := by
      rcases hu : a.updated_at with _ | y
      · rfl
      · rw [hu] at h; simp at h
    have h2 : a.updated = none := by
      rcases hw : a.updated with _ | w
      · rfl
      · rw [h1, hw] at h; simp at h
    simp [GitHubCodeScanningResultService.mapGitHubAlertToResult, h1, h2]
  · intro h
    have h1 : d.updated_at = none := by
      rcases hu : d.updated_at with _ | y
      · rfl
      · rw [hu] at h; simp at h
    have h2 : d.updated = none := by
      rcases hw : d.updated with _ | w
      · rfl
      · rw [h1, hw] at h; simp at h
    simp [GitHubDependencyScanningResultService.mapGitHubDependabotAlertToResult, h1, h2]

/-- Witness for `C8_timestamps`: a concrete code-scanning alert with no
updated timestamp (the fallback case) and a concrete Dependabot alert with
ordered timestamps. -/
theorem C8_timestamps_witness :
    (GitHubCodeScanningResultService.mapGitHubAlertToResult noUpdatedAlert "main").timestampsOrdered
        = true ∧
    (GitHubDependencyScanningResultService.mapGitHubDependabotAlertToResult okDependabotAlert
        "dev").timestampsOrdered = true ∧
    (GitHubCodeScanningResultService.mapGitHubAlertToResult noUpdatedAlert "main").updatedAt =
      (GitHubCodeScanningResultService.mapGitHubAlertToResult noUpdatedAlert "main").createdAt := by
  obtain ⟨h₁, h₂, h₃, _⟩ :=
    C8_timestamps noUpdatedAlert okDependabotAlert "main" "dev" (by decide) (by decide)
  exact ⟨h₁, h₂, h₃ (by decide)⟩

theorem processGitHubApp_of_failure (branchName : String) (app : GitHubAppScan) (e : String)
    (h : app.failureMsg = some e) :
    processGitHubApp branchName app =
      (errorResult app.appName branchName,
       some { applicationName := "GitHub: " ++ app.appName, error := e }) := by
  unfold GitHubAppScan.failureMsg at h
  rcases hc : app.codeFetch with e' | l
  · rw [hc] at h
    simp only [Option.some.injEq] at h
    subst h
    simp [processGitHubApp, hc]
  · rcases hd : app.depFetch with e' | l'
    · rw [hc, hd] at h
      simp only [Option.some.injEq] at h
      subst h
      simp [processGitHubApp, hc, hd]
    · rw [hc, hd] at h
      simp at h

theorem processAzureApp_of_failure (branchName : String) (app : AzureAppScan) (e : String)
    (h : app.failureMsg = some e) :
    processAzureApp branchName app =
      (errorResult app.appName branchName,
       some { applicationName := "Azure DevOps: " ++ app.appName, error := e }) := by
  unfold AzureAppScan.failureMsg at h
  rcases hc : app.codeFetch with e' | l
  · rw [hc] at h
    simp only [Option.some.injEq] at h
    subst h
    simp [processAzureApp, hc]
  · rcases hd : app.depFetch with e' | l'
    · rw [hc, hd] at h
      simp only [Option.some.injEq] at h
      subst h
      simp [processAzureApp, hc, hd]
    · rw [hc, hd] at h
      simp at h

theorem processGitHubApp_azure_empty (branchName : String) (app : GitHubAppScan) :
    (processGitHubApp branchName app).1.azureDevOpsResults.codeScanning = [] ∧
    (processGitHubApp branchName app).1.azureDevOpsResults.dependencyScanning = [] := by
  rcases hc : app.codeFetch with e | l <;> rcases hd : app.depFetch with e' | l' <;>
    simp [processGitHubApp, errorResult, hc, hd]

theorem processAzureApp_github_empty (branchName : String) (app : AzureAppScan) :
    (processAzureApp branchName app).1.githubResults.codeScanning = [] ∧
    (processAzureApp branchName app).1.githubResults.dependencyScanning = [] := by
  rcases hc : app.codeFetch with e | l <;> rcases hd : app.depFetch with e' | l' <;>
    simp [processAzureApp, errorResult, hc, hd]

/-- Claim C6, counterexample: a GitHub application whose code-scanning fetch
throws while its dependency-scanning fetch would succeed with one finding.
Contrary to the claim, the successful dependency result is not kept: both
fetches run inside one `try`, so the whole application collapses to the
all-empty placeholder plus a scan error. -/
theorem C6_counterexample :
    (processGitHubApp "main" mixedOutcomeGitHubApp).1 = errorResult "app-a" "main" ∧
    (processGitHubApp "main" mixedOutcomeGitHubApp).1.githubResults.dependencyScanning = [] ∧
    (processGitHubApp "main" mixedOutcomeGitHubApp).2 =
      some { applicationName := "GitHub: app-a", error := "boom" } := by
  decide

/-- Claim C6 (amended): within the scan of one application the connector
calls are not independent: if either fetch fails, the remaining fetch for
that application is not used, the application's result is the all-empty
placeholder (not an empty sequence for just the one failed category), and a
scan error carrying the platform-prefixed application name and the error
message is recorded.  This holds for both the GitHub and the Azure DevOps
loop. -/
theorem C6_failure_collapses_application (branchName : String) (gapp : GitHubAppScan)
    (aapp : AzureAppScan) (e₁ e₂ : String)
    (hg : gapp.failureMsg = some e₁) (ha : aapp.failureMsg = some e₂) :
    processGitHubApp branchName gapp =
      (errorResult gapp.appName branchName,
       some { applicationName := "GitHub: " ++ gapp.appName, error := e₁ }) ∧
    processAzureApp branchName aapp =
      (errorResult aapp.appName branchName,
       some { applicationName := "Azure DevOps: " ++ aapp.appName, error := e₂ }) :=
  ⟨processGitHubApp_of_failure branchName gapp e₁ hg,
   processAzureApp_of_failure branchName aapp e₂ ha⟩

/-- Witness for `C6_failure_collapses_application` at a concrete failing
GitHub application and a concrete failing Azure DevOps application. -/
theorem C6_failure_witness :
    processGitHubApp "main" mixedOutcomeGitHubApp =
      (errorResult "app-a" "main",
       some { applicationName := "GitHub: app-a", error := "boom" }) ∧
    processAzureApp "main" failingAzureApp =
      (errorResult "az-app" "main",
       some { applicationName := "Azure DevOps: az-app", error := "down" }) := by
  have h := C6_failure_collapses_application "main" mixedOutcomeGitHubApp failingAzureApp
    "boom" "down" (by decide) (by decide)
  simpa [mixedOutcomeGitHubApp, failingAzureApp] using h

/-- Claim C4, counterexample: in the specified scenario the single error
entry's `applicationName` is not "svc-b" — the Azure DevOps loop stores it
with the platform prefix, as "Azure DevOps: svc-b". -/
theorem C4_counterexample :
    scenarioRun.errors.length = 1 ∧
    scenarioRun.errors.map ScanError.applicationName ≠ ["svc-b"] := by
  decide

/-- Claim C4 (amended): in a run where "svc-a" yields two GitHub code
findings (high, low) and no dependency findings and "svc-b" fails during
its Azure DevOps dependency fetch: two application results, one error whose
`applicationName` is "Azure DevOps: svc-b" (the platform-prefixed
application name), `severitySummary.high = 1`, `severitySummary.low = 1`,
and `totalGithubCodeScanningIssues = 2`. -/
theorem C4_scenario :
    scenarioRun.applications.length = 2 ∧
    scenarioRun.errors.length = 1 ∧
    scenarioRun.errors.map ScanError.applicationName = ["Azure DevOps: svc-b"] ∧
    scenarioRun.summary.severitySummary.high = 1 ∧
    scenarioRun.summary.severitySummary.low = 1 ∧
    scenarioRun.summary.totalGithubCodeScanningIssues = 2 := by
  decide

/-- Claim C7: in every run `summary.totalApplications` equals
`applications.length` (each configured application, failed or not,
contributes exactly one result), and `errors.length` never exceeds
`applications.length` (each application contributes at most one error). -/
theorem C7_summary_invariants (branchName : String) (ghApps : List GitHubAppScan)
    (azApps : List AzureAppScan) :
    (runAll branchName ghApps azApps).summary.totalApplications =
      (runAll branchName ghApps azApps).applications.length ∧
    (runAll branchName ghApps azApps).errors.length ≤
      (runAll branchName ghApps azApps).applications.length := by
  constructor
  · simp [runAll]
  · simp only [runAll, List.length_append, List.length_map]
    exact Nat.add_le_add
      ((List.length_filterMap_le _ _).trans (by simp))
      ((List.length_filterMap_le _ _).trans (by simp))

/-- Claim C9: an application result built by the multi-application run
carries findings from at most one platform: results in the GitHub segment
of `applications` (index below the GitHub list's length) have both Azure
DevOps finding sequences empty, and results in the Azure DevOps segment
have both GitHub finding sequences empty. -/
theorem C9_single_platform (branchName : String) (ghApps : List GitHubAppScan)
    (azApps : List AzureAppScan) (i : Nat) (r : AggregatedScanningResult) :
    (i < ghApps.length →
      (runAll branchName ghApps azApps).applications[i]? = some r →
      r.azureDevOpsResults.codeScanning = [] ∧
      r.azureDevOpsResults.dependencyScanning = []) ∧
    (ghApps.length ≤ i →
      (runAll branchName ghApps azApps).applications[i]? = some r →
      r.githubResults.codeScanning = [] ∧
      r.githubResults.dependencyScanning = []) := by
  constructor
  · intro hi hr
    simp only [runAll] at hr
    rw [List.getElem?_append_left (by simpa using hi), List.getElem?_map,
      List.getElem?_map, List.getElem?_eq_getElem hi] at hr
    simp only [Option.map_some', Option.some.injEq] at hr
    subst hr
    exact processGitHubApp_azure_empty branchName _
  · intro hi hr
    simp only [runAll] at hr
    rw [List.getElem?_append_right (by simpa using hi), List.getElem?_map,
      List.getElem?_map] at hr
    rcases ha : azApps[i - ((ghApps.map (processGitHubApp branchName)).map Prod.fst).length]?
        with _ | app
    · rw [ha] at hr; simp at hr
    · rw [ha] at hr
      simp only [Option.map_some', Option.some.injEq] at hr
      subst hr
      exact processAzureApp_github_empty branchName _

/-- Witness for `C9_single_platform`: a concrete two-application run, one
healthy GitHub application at index 0 and one healthy Azure DevOps
application at index 1. -/
theorem C9_single_platform_witness :
    (processGitHubApp "main" healthyGitHubApp).1.azureDevOpsResults.codeScanning = [] ∧
    (processGitHubApp "main" healthyGitHubApp).1.azureDevOpsResults.dependencyScanning = [] ∧
    (processAzureApp "main" healthyAzureApp).1.githubResults.codeScanning = [] ∧
    (processAzureApp "main" healthyAzureApp).1.githubResults.dependencyScanning = [] := by
  have h1 := (C9_single_platform "main" [healthyGitHubApp] [healthyAzureApp] 0
      (processGitHubApp "main" healthyGitHubApp).1).1 (by decide) (by decide)
  have h2 := (C9_single_platform "main" [healthyGitHubApp] [healthyAzureApp] 1
      (processAzureApp "main" healthyAzureApp).1).2 (by decide) (by decide)
  exact ⟨h1.1, h1.2, h2.1, h2.2⟩

/-- Claim C1: if scanning one application fails (its failure message is
`e`), the orchestration records a scan error carrying the
platform-prefixed application name and the message `e`, places the
all-empty placeholder result at that application's position, and the run
still yields one result per configured application (the loop continues and
never raises).  Stated for a failing application in either loop. -/
theorem C1_fault_isolation (branchName : String) (ghApps : List GitHubAppScan)
    (azApps : List AzureAppScan) (i : Nat) (e : String) :
    (∀ app, ghApps[i]? = some app → app.failureMsg = some e →
      (runAll branchName ghApps azApps).applications[i]? =
        some (errorResult app.appName branchName) ∧
      { applicationName := "GitHub: " ++ app.appName, error := e } ∈
        (runAll branchName ghApps azApps).errors) ∧
    (∀ app, azApps[i]? = some app → app.failureMsg = some e →
      (runAll branchName ghApps azApps).applications[ghApps.length + i]? =
        some (errorResult app.appName branchName) ∧
      { applicationName := "Azure DevOps: " ++ app.appName, error := e } ∈
        (runAll branchName ghApps azApps).errors) ∧
    (runAll branchName ghApps azApps).applications.length =
      ghApps.length + azApps.length := by
  refine ⟨?_, ?_, by simp [runAll]⟩
  · intro app happ hfail
    have hi : i < ghApps.length := by
      obtain ⟨h, -⟩ := List.getElem?_eq_some_iff.mp happ
      exact h
    constructor
    · simp only [runAll]
      rw [List.getElem?_append_left (by simpa using hi), List.getElem?_map,
        List.getElem?_map, happ]
      simp [processGitHubApp_of_failure branchName app e hfail]
    · simp only [runAll]
      refine List.mem_append_left _ (List.mem_filterMap.mpr ?_)
      refine ⟨processGitHubApp branchName app,
        List.mem_map_of_mem _ (List.getElem?_mem happ), ?_⟩
      rw [processGitHubApp_of_failure branchName app e hfail]
  · intro app happ hfail
    constructor
    · simp only [runAll]
      rw [List.getElem?_append_right (by simp), List.getElem?_map, List.getElem?_map]
      have hidx :
          ghApps.length + i -
            ((ghApps.map (processGitHubApp branchName)).map Prod.fst).length = i := by
        simp
      rw [hidx, happ]
      simp [processAzureApp_of_failure branchName app e hfail]
    · simp only [runAll]
      refine List.mem_append_right _ (List.mem_filterMap.mpr ?_)
      refine ⟨processAzureApp branchName app,
        List.mem_map_of_mem _ (List.getElem?_mem happ), ?_⟩
      rw [processAzureApp_of_failure branchName app e hfail]

/-- Witness for `C1_fault_isolation`: a concrete run with one failing
GitHub application and one failing Azure DevOps application. -/
theorem C1_fault_isolation_witness :
    (runAll "main" [failingGitHubApp] [failingAzureApp]).applications[0]? =
      some (errorResult "gh-app" "main") ∧
    { applicationName := "GitHub: gh-app", error := "boom" } ∈
      (runAll "main" [failingGitHubApp] [failingAzureApp]).errors ∧
    (runAll "main" [failingGitHubApp] [failingAzureApp]).applications[1]? =
      some (errorResult "az-app" "main") ∧
    { applicationName := "Azure DevOps: az-app", error := "down" } ∈
      (runAll "main" [failingGitHubApp] [failingAzureApp]).errors ∧
    (runAll "main" [failingGitHubApp] [failingAzureApp]).applications.length = 2 := by
  have hg := (C1_fault_isolation "main" [failingGitHubApp] [failingAzureApp] 0 "boom").1
    failingGitHubApp (by decide) (by decide)
  have ha := (C1_fault_isolation "main" [failingGitHubApp] [failingAzureApp] 0 "down").2.1
    failingAzureApp (by decide) (by decide)
  have hl := (C1_fault_isolation "main" [failingGitHubApp] [failingAzureApp] 0 "down").2.2
  exact ⟨by simpa [failingGitHubApp] using hg.1, by simpa [failingGitHubApp] using hg.2,
    by simpa [failingAzureApp] using ha.1, by simpa [failingAzureApp] using ha.2,
    by simpa using hl⟩

/-- Claim C10: whenever the Azure DevOps code-scanning fetch completes
without throwing, it returns the empty list (both success branches of the
service return `[]`); consequently, in every run whose Azure DevOps code
fetches are outcomes of this service, every application result's Azure
DevOps code-scanning sequence is empty and
`summary.totalAzureDevOpsCodeScanningIssues` is `0`. -/
theorem C10_azure_code_scanning_empty (branchName : String) (ghApps : List GitHubAppScan)
    (azApps : List AzureAppScan)
    (h : ∀ app ∈ azApps, ∃ resp, app.codeFetch =
      AzureDevOpsCodeScanningResultService.fetchCodeScanningResults resp) :
    (∀ resp findings,
      AzureDevOpsCodeScanningResultService.fetchCodeScanningResults resp =
        Except.ok findings → findings = []) ∧
    (∀ r ∈ (runAll branchName ghApps azApps).applications,
      r.azureDevOpsResults.codeScanning = []) ∧
    (runAll branchName ghApps azApps).summary.totalAzureDevOpsCodeScanningIssues = 0 := by
  have hok : ∀ resp findings,
      AzureDevOpsCodeScanningResultService.fetchCodeScanningResults resp =
        Except.ok findings → findings = [] := by
    intro resp findings hfetch
    rcases resp with e | ob
    · simp [AzureDevOpsCodeScanningResultService.fetchCodeScanningResults] at hfetch
    · rcases ob with _ | bs <;>
        simpa [AzureDevOpsCodeScanningResultService.fetchCodeScanningResults, eq_comm]
          using hfetch
  have hempty : ∀ app ∈ azApps,
      (processAzureApp branchName app).1.azureDevOpsResults.codeScanning = [] := by
    intro app hmem
    rcases hc : app.codeFetch with e | l
    · rcases hd : app.depFetch with e' | l' <;> simp [processAzureApp, hc, hd, errorResult]
    · obtain ⟨resp, hresp⟩ := h app hmem
      have hl : l = [] := hok resp l (by rw [← hresp, hc])
      subst hl
      rcases hd : app.depFetch with e' | l' <;> simp [processAzureApp, hc, hd, errorResult]
  have happs : ∀ r ∈ (runAll branchName ghApps azApps).applications,
      r.azureDevOpsResults.codeScanning = [] := by
    intro r hr
    simp only [runAll] at hr
    rcases List.mem_append.mp hr with hgh | haz
    · obtain ⟨p, hp, rfl⟩ := List.mem_map.mp hgh
      obtain ⟨app, happ, rfl⟩ := List.mem_map.mp hp
      exact (processGitHubApp_azure_empty branchName app).1
    · obtain ⟨p, hp, rfl⟩ := List.mem_map.mp haz
      obtain ⟨app, happ, rfl⟩ := List.mem_map.mp hp
      exact hempty app happ
  refine ⟨hok, happs, ?_⟩
  show (((ghApps.map (processGitHubApp branchName)).map Prod.fst ++
      (azApps.map (processAzureApp branchName)).map Prod.fst).map
        (fun r => r.azureDevOpsResults.codeScanning.length)).sum = 0
  refine List.sum_eq_zero ?_
  intro n hn
  obtain ⟨r, hrmem, rfl⟩ := List.mem_map.mp hn
  have := happs r (by simpa [runAll] using hrmem)
  simp [this]

/-- Witness for `C10_azure_code_scanning_empty`: a concrete run with one
healthy GitHub application and one Azure DevOps application whose code
fetch is the service's outcome on a well-formed builds response. -/
theorem C10_azure_code_scanning_empty_witness :
    (processAzureApp "main" healthyAzureApp).1.azureDevOpsResults.codeScanning = [] ∧
    (runAll "main" [healthyGitHubApp]
      [healthyAzureApp]).summary.totalAzureDevOpsCodeScanningIssues = 0 := by
  have h := C10_azure_code_scanning_empty "main" [healthyGitHubApp] [healthyAzureApp]
    (by
      intro app hmem
      simp only [List.mem_singleton] at hmem
      subst hmem
      exact ⟨Except.ok (some [{ id := 7 }]), rfl⟩)
  exact ⟨h.2.1 _ (by decide), h.2.2⟩

theorem severity_filter_partition (L : List Severity) :
    (L.filter (fun s => s == Severity.critical)).length +
    (L.filter (fun s => s == Severity.high)).length +
    (L.filter (fun s => s == Severity.medium)).length +
    (L.filter (fun s => s == Severity.low)).length +
    (L.filter (fun s => s == Severity.warning)).length +
    (L.filter (fun s => s == Severity.note)).length = L.length := by
  induction L with
  | nil => rfl
  | cons s t ih => cases s <;> simp [List.filter_cons] <;> omega

theorem totalFindingCount_eq_flatten_length (rs : List AggregatedScanningResult) :
    totalFindingCount rs =
      ((rs.map AggregatedScanningResult.allSeverities).flatten).length := by
  simp only [List.length_flatten, List.map_map]
  unfold totalFindingCount
  apply congrArg List.sum
  apply List.map_congr_left
  intro r hr
  simp [AggregatedScanningResult.allSeverities, Function.comp]
  omega

theorem bucketSum_severitySummaryOf (rs : List AggregatedScanningResult) :
    bucketSum (severitySummaryOf rs) = totalFindingCount rs := by
  have h := severity_filter_partition ((rs.map AggregatedScanningResult.allSeverities).flatten)
  have h2 := totalFindingCount_eq_flatten_length rs
  unfold bucketSum severitySummaryOf countSeverity
  dsimp only
  omega

theorem severitySummaryOf_perm {rs rs' : List AggregatedScanningResult}
    (h : rs.Perm rs') : severitySummaryOf rs = severitySummaryOf rs' := by
  have hflat : ((rs.map AggregatedScanningResult.allSeverities).flatten).Perm
      ((rs'.map AggregatedScanningResult.allSeverities).flatten) :=
    (h.map AggregatedScanningResult.allSeverities).flatten
  have hc : ∀ sev : Severity, countSeverity rs sev = countSeverity rs' sev := by
    intro sev
    exact (hflat.filter (fun s => s == sev)).length_eq
  unfold severitySummaryOf
  rw [SeveritySummary.mk.injEq]
  exact ⟨hc Severity.critical, hc Severity.high, hc Severity.medium, hc Severity.low,
    hc Severity.warning, hc Severity.note⟩

/-- Claim C3: in every run the six severity-histogram buckets sum to the
total number of findings across all four finding sequences of all
application results (fold consistency), and the whole summary — histogram
buckets, the four per-platform-per-category totals and the application
count — is unchanged when either configured application list is permuted
(order-independence of the fold). -/
theorem C3_fold_consistency (branchName : String) (ghApps ghApps' : List GitHubAppScan)
    (azApps azApps' : List AzureAppScan)
    (hg : ghApps.Perm ghApps') (ha : azApps.Perm azApps') :
    bucketSum (runAll branchName ghApps azApps).summary.severitySummary =
      totalFindingCount (runAll branchName ghApps azApps).applications ∧
    (runAll branchName ghApps azApps).summary =
      (runAll branchName ghApps' azApps').summary := by
  constructor
  · exact bucketSum_severitySummaryOf _
  · have hperm : (((ghApps.map (processGitHubApp branchName)).map Prod.fst) ++
        ((azApps.map (processAzureApp branchName)).map Prod.fst)).Perm
        (((ghApps'.map (processGitHubApp branchName)).map Prod.fst) ++
         ((azApps'.map (processAzureApp branchName)).map Prod.fst)) :=
      ((hg.map _).map _).append ((ha.map _).map _)
    simp only [runAll]
    rw [ScanningSummary.mk.injEq]
    refine ⟨?_, ?_, ?_, ?_, ?_, ?_⟩
    · rw [hg.length_eq, ha.length_eq]
    · exact (hperm.map _).sum_eq
    · exact (hperm.map _).sum_eq
    · exact (hperm.map _).sum_eq
    · exact (hperm.map _).sum_eq
    · exact severitySummaryOf_perm hperm

/-- Witness for `C3_fold_consistency`: a concrete three-application run and
the run with its two GitHub applications swapped. -/
theorem C3_fold_consistency_witness :
    bucketSum ((runAll "main" [failingGitHubApp, healthyGitHubApp]
        [healthyAzureApp]).summary.severitySummary) =
      totalFindingCount ((runAll "main" [failingGitHubApp, healthyGitHubApp]
        [healthyAzureApp]).applications) ∧
    (runAll "main" [failingGitHubApp, healthyGitHubApp] [healthyAzureApp]).summary =
      (runAll "main" [healthyGitHubApp, failingGitHubApp] [healthyAzureApp]).summary :=
  C3_fold_consistency "main" [failingGitHubApp, healthyGitHubApp]
    [healthyGitHubApp, failingGitHubApp] [healthyAzureApp] [healthyAzureApp]
    (List.Perm.swap healthyGitHubApp failingGitHubApp [])
    (List.Perm.refl _)
